import Mathlib

/-!
Verification of the training-job lifecycle of the decen-ai-platform backend.

This development embeds, as executable Lean definitions, the job store
(`backend/job_store.py`), the background training worker `run_training_job`
and the HTTP handlers `start_training` / `get_training_status`
(`backend/routers/training.py`), and the publish handler
`upload_and_register_model` (`backend/routers/models.py`).

External collaborators (Lighthouse blob storage, the FVM ledger, the ML
trainer, the file system) are modelled as oracle records holding the
outcome each call site can observe:
- `lighthouse_service.upload_file` and `download_file` catch every
  exception internally and return `None` / `False` on failure, so they are
  modelled as total functions into `Option`/`Bool`;
- `fvm_service.register_asset_provenance` catches every exception and
  returns `None` on failure, so it is an `Option String` outcome;
- `fvm_service.verify_payment` is called by the worker but has no
  definition in the services module, so its outcome is abstracted as
  either a returned boolean or a raised exception;
- `ml_service.train_model_on_dataset` catches exceptions and returns a
  4-tuple of `None`s on failure, but the subsequent metadata augmentation
  and `json.dump` in the worker can still raise, so the training stage
  outcome is an exception-or-value.

Job `status` values and messages are the exact strings of the source.
`accuracy` is a Python float in the source; no claim computes with it, so
it is modelled as an `Option Rat`. Timestamps are abstract `Nat` ticks.
-/

namespace DecenAI

/-- Embedding of `TrainingStatusResponse` (backend/models/data_models.py,
lines 34-49), the record type stored per job in the job store and returned
by the status endpoint. -/
structure JobRecord where
  job_id : String
  status : String
  message : Option String := none
  dataset_cid : String
  owner_address : String
  model_cid : Option String := none
  model_info_cid : Option String := none
  accuracy : Option Rat := none
  fvm_tx_hash : Option String := none
  created_at : Nat := 0
  updated_at : Nat := 0
  temp_model_path : Option String := none
  temp_info_path : Option String := none
deriving DecidableEq

/-- The in-memory job store `_training_jobs` (backend/job_store.py line 14):
a dictionary from job id to `JobRecord`, embedded as an association list. -/
abbrev JobStore : Type := List (String × JobRecord)

/-- `job_store.get_job` (backend/job_store.py lines 16-18). -/
def get_job (store : JobStore) (job_id : String) : Option JobRecord :=
  match List.find? (fun p => p.1 == job_id) store with
  | some p => some p.2
  | none => none

/-- `job_store.store_job` (backend/job_store.py lines 20-26): rejects a job
with a falsy (empty) `job_id`, otherwise performs the dictionary assignment
`_training_jobs[job.job_id] = job`. -/
def store_job (store : JobStore) (j : JobRecord) : JobStore :=
  if j.job_id = "" then store
  else (j.job_id, j) :: List.filter (fun p => p.1 != j.job_id) store

/-- The keyword arguments accepted by `job_store.update_job_status` at its
call sites: `none` means the keyword is absent from the call, `some v`
means the attribute is set to `v` (which may itself be Python `None`). -/
structure UpdateKwargs where
  accuracy : Option (Option Rat) := none
  model_cid : Option (Option String) := none
  model_info_cid : Option (Option String) := none
  fvm_tx_hash : Option (Option String) := none
  temp_model_path : Option (Option String) := none
  temp_info_path : Option (Option String) := none

/-- The `setattr` loop of `update_job_status` (backend/job_store.py
lines 36-40) applied to the keyword arguments present in the call. -/
def applyKwargs (j : JobRecord) (kw : UpdateKwargs) : JobRecord :=
  { j with
    accuracy := kw.accuracy.getD j.accuracy
    model_cid := kw.model_cid.getD j.model_cid
    model_info_cid := kw.model_info_cid.getD j.model_info_cid
    fvm_tx_hash := kw.fvm_tx_hash.getD j.fvm_tx_hash
    temp_model_path := kw.temp_model_path.getD j.temp_model_path
    temp_info_path := kw.temp_info_path.getD j.temp_info_path }

/-- `job_store.update_job_status` (backend/job_store.py lines 28-45): looks
the job up, overwrites `status` and `message` (the `message` parameter
defaults to `None`, so a call without a message clears it), refreshes
`updated_at`, applies the keyword arguments, and re-stores the job. An
unknown `job_id` only logs and leaves the store unchanged. -/
def update_job_status (store : JobStore) (job_id status : String)
    (message : Option String) (now : Nat) (kw : UpdateKwargs) : JobStore :=
  match get_job store job_id with
  | none => store
  | some j =>
      store_job store
        (applyKwargs { j with status := status, message := message, updated_at := now } kw)

/-- Outcome of calling a Python function that may raise: either a raised
exception (its message) or a returned value. -/
inductive ExcOr (α : Type) where
  | raise : String → ExcOr α
  | ret : α → ExcOr α
deriving DecidableEq

/-- Successful result of `ml_service.train_model_on_dataset` as consumed by
the worker: the saved model path, the saved info path, and the accuracy
read from the returned metadata (`model_info.get('accuracy')`, which may be
`None`). -/
structure TrainOutputs where
  saved_model_path : String
  saved_info_path : String
  accuracy : Option Rat := none
deriving DecidableEq

/-- Oracle for one run of the training worker: the configured service fee
(`config.TRAINING_SERVICE_FEE`, an integer defaulting to 0 when unset, and
`0` is falsy in the guard `if not expected_fee`), and the outcomes of the
external calls the worker makes, in order. -/
structure TrainEnv where
  training_service_fee : Nat
  verify_payment : ExcOr Bool
  download_file : ExcOr Bool
  train_model : ExcOr (Option TrainOutputs)
  write_info_exc : Option String := none

/-- Result of one run of the training worker: the updated store, whether
the dataset download / trainer were ever invoked, and the successive
`status` values the worker wrote, in order. -/
structure WorkerResult where
  store : JobStore
  downloadInvoked : Bool
  trainInvoked : Bool
  trace : List String

/-- `run_training_job` (backend/routers/training.py lines 24-145): the
background task. It first writes `VERIFYING_PAYMENT`; an unset (zero) fee
or a failed verification writes `FAILED` and returns; a verified payment
proceeds to `DOWNLOADING`, `TRAINING` and, on success,
`TRAINING_COMPLETE` with the staged file paths and accuracy recorded.
Any exception raised inside the `try` block is caught by the outer handler
(lines 121-125), which writes `FAILED` with the exception's message. -/
def run_training_job (env : TrainEnv) (store : JobStore) (job_id : String)
    (now : Nat) : WorkerResult :=
  let s1 := update_job_status store job_id "VERIFYING_PAYMENT"
    (some "Verifying service fee payment...") now {}
  if env.training_service_fee = 0 then
    ⟨update_job_status s1 job_id "FAILED" (some "Service configuration error.") now {},
      false, false, ["VERIFYING_PAYMENT", "FAILED"]⟩
  else
    match env.verify_payment with
    | .raise e =>
        ⟨update_job_status s1 job_id "FAILED"
            (some ("An unexpected error occurred during training: " ++ e)) now {},
          false, false, ["VERIFYING_PAYMENT", "FAILED"]⟩
    | .ret false =>
        ⟨update_job_status s1 job_id "FAILED"
            (some "Service fee payment verification failed.") now {},
          false, false, ["VERIFYING_PAYMENT", "FAILED"]⟩
    | .ret true =>
        let s2 := update_job_status s1 job_id "DOWNLOADING" none now {}
        match env.download_file with
        | .raise e =>
            ⟨update_job_status s2 job_id "FAILED"
                (some ("An unexpected error occurred during training: " ++ e)) now {},
              true, false, ["VERIFYING_PAYMENT", "DOWNLOADING", "FAILED"]⟩
        | .ret false =>
            ⟨update_job_status s2 job_id "FAILED"
                (some "Failed to download dataset from storage.") now {},
              true, false, ["VERIFYING_PAYMENT", "DOWNLOADING", "FAILED"]⟩
        | .ret true =>
            let s3 := update_job_status s2 job_id "TRAINING" none now {}
            match env.train_model with
            | .raise e =>
                ⟨update_job_status s3 job_id "FAILED"
                    (some ("An unexpected error occurred during training: " ++ e)) now {},
                  true, true, ["VERIFYING_PAYMENT", "DOWNLOADING", "TRAINING", "FAILED"]⟩
            | .ret none =>
                ⟨update_job_status s3 job_id "FAILED"
                    (some "Model training process failed.") now {},
                  true, true, ["VERIFYING_PAYMENT", "DOWNLOADING", "TRAINING", "FAILED"]⟩
            | .ret (some out) =>
                match env.write_info_exc with
                | some e =>
                    ⟨update_job_status s3 job_id "FAILED"
                        (some ("An unexpected error occurred during training: " ++ e)) now {},
                      true, true,
                      ["VERIFYING_PAYMENT", "DOWNLOADING", "TRAINING", "FAILED"]⟩
                | none =>
                    ⟨update_job_status s3 job_id "TRAINING_COMPLETE"
                        (some "Model training finished. Ready for upload and registration.") now
                        { accuracy := some out.accuracy
                          temp_model_path := some (some out.saved_model_path)
                          temp_info_path := some (some out.saved_info_path) },
                      true, true,
                      ["VERIFYING_PAYMENT", "DOWNLOADING", "TRAINING", "TRAINING_COMPLETE"]⟩

/-- Oracle for one invocation of the publish handler: the set of paths that
exist on disk (`os.path.exists`), the outcome of
`lighthouse_service.upload_file` per path (`none` on any failure — that
function catches all exceptions), and the outcome of
`fvm_service.register_asset_provenance` (`none` on any failure — that
function catches all exceptions). -/
structure PublishEnv where
  existing_files : List String
  upload_file : String → Option String
  register_asset_provenance : Option String

/-- An HTTP outcome of the publish handler: either the 200 response body
(`model_cid`, `model_info_cid`, optional `fvm_tx_hash`, message) or an
error status code with its detail string. -/
inductive HttpResult where
  | ok : String → String → Option String → String → HttpResult
  | err : Nat → String → HttpResult
deriving DecidableEq

/-- Result of one invocation of the publish handler: the updated store, the
HTTP outcome, which external side effects ran, the `status` values written
(in order), and the file system after the cleanup block. -/
structure PublishResult where
  store : JobStore
  result : HttpResult
  modelUploadInvoked : Bool
  infoUploadInvoked : Bool
  ledgerInvoked : Bool
  trace : List String
  existing_files : List String

/-- Python `str.lower()` as applied to the ASCII wallet addresses compared
by the publish handler, written via `List.map` over the characters so that
it evaluates inside the kernel. -/
def pyLower (s : String) : String := String.mk (s.data.map Char.toLower)

/-- Python truthiness of an optional string attribute: `None` and the empty
string are falsy (`if not job.temp_model_path`). -/
def locatorFalsy : Option String → Bool
  | none => true
  | some s => s = ""

/-- `upload_and_register_model` (backend/routers/models.py lines 41-181).
Validations, in order and before any side effect: job exists (else 404),
`job.owner_address.lower() == current_user_address.lower()` (else 403),
`job.status == "TRAINING_COMPLETE"` (else 409), both temp paths truthy
(else 500, with no status update), both files exist on disk (else the job
is marked `FAILED` and 404 is returned). The body uploads the model, then
the info file (a falsy CID raises an HTTP 500 which the `except` clause
turns into final status `UPLOAD_FAILED`), then registers provenance (a
falsy transaction hash yields final status `COMPLETED` with a warning).
The `finally` block always writes the final status together with whatever
`model_cid` / `model_info_cid` / `fvm_tx_hash` were obtained (`None` for
those not obtained) and clears both temp paths. The subsequent cleanup in
the same block re-reads `job.temp_model_path` / `job.temp_info_path`, but
`update_job_status` has just set those attributes to `None` on the very
object `job` references (the store hands out the stored object itself),
so the `os.remove` calls are never reached and the file system is
returned unchanged. -/
def upload_and_register_model (env : PublishEnv) (store : JobStore)
    (job_id current_user_address : String) (_model_name : Option String)
    (now : Nat) : PublishResult :=
  match get_job store job_id with
  | none =>
      ⟨store, .err 404 ("Training job " ++ job_id ++ " not found."),
        false, false, false, [], env.existing_files⟩
  | some job =>
      if pyLower job.owner_address ≠ pyLower current_user_address then
        ⟨store,
          .err 403 "User is not authorized to perform this action on the specified job.",
          false, false, false, [], env.existing_files⟩
      else if job.status ≠ "TRAINING_COMPLETE" then
        ⟨store,
          .err 409 ("Job " ++ job_id ++ " is not ready for upload. Current status: "
            ++ job.status),
          false, false, false, [], env.existing_files⟩
      else if locatorFalsy job.temp_model_path || locatorFalsy job.temp_info_path then
        ⟨store, .err 500 "Internal error: Training output file paths not found.",
          false, false, false, [], env.existing_files⟩
      else
        let mp := job.temp_model_path.getD ""
        let ip := job.temp_info_path.getD ""
        if !(env.existing_files.contains mp) || !(env.existing_files.contains ip) then
          ⟨update_job_status store job_id "FAILED"
              (some "Required temporary files for upload were missing.") now {},
            .err 404
              "Required files for upload not found. The job may have expired or encountered an error.",
            false, false, false, ["FAILED"], env.existing_files⟩
        else
          match env.upload_file mp with
          | none =>
              ⟨update_job_status store job_id "UPLOAD_FAILED"
                  (some "Failed to upload trained model file.") now
                  { model_cid := some none, model_info_cid := some none
                    fvm_tx_hash := some none
                    temp_model_path := some none, temp_info_path := some none },
                .err 500 "Failed to upload trained model file.",
                true, false, false, ["UPLOAD_FAILED"], env.existing_files⟩
          | some model_cid =>
              match env.upload_file ip with
              | none =>
                  ⟨update_job_status store job_id "UPLOAD_FAILED"
                      (some "Failed to upload model metadata file.") now
                      { model_cid := some (some model_cid), model_info_cid := some none
                        fvm_tx_hash := some none
                        temp_model_path := some none, temp_info_path := some none },
                    .err 500 "Failed to upload model metadata file.",
                    true, true, false, ["UPLOAD_FAILED"], env.existing_files⟩
              | some model_info_cid =>
                  match env.register_asset_provenance with
                  | none =>
                      ⟨update_job_status store job_id "COMPLETED"
                          (some "Model and metadata uploaded, but FVM provenance registration failed.")
                          now
                          { model_cid := some (some model_cid)
                            model_info_cid := some (some model_info_cid)
                            fvm_tx_hash := some none
                            temp_model_path := some none, temp_info_path := some none },
                        .ok model_cid model_info_cid none
                          "Model and metadata uploaded, but FVM provenance registration failed.",
                        true, true, true, ["COMPLETED"], env.existing_files⟩
                  | some fvm_tx_hash =>
                      ⟨update_job_status store job_id "COMPLETED"
                          (some "Model uploaded and provenance registered successfully.") now
                          { model_cid := some (some model_cid)
                            model_info_cid := some (some model_info_cid)
                            fvm_tx_hash := some (some fvm_tx_hash)
                            temp_model_path := some none, temp_info_path := some none },
                        .ok model_cid model_info_cid (some fvm_tx_hash)
                          "Model uploaded and provenance registered successfully.",
                        true, true, true, ["COMPLETED"], env.existing_files⟩

/-- Outcome of the status endpoint: the serialized `TrainingStatusResponse`
(the stored record, all fields included) or an error. -/
inductive StatusResult where
  | ok : JobRecord → StatusResult
  | err : Nat → String → StatusResult
deriving DecidableEq

/-- `get_training_status` (backend/routers/training.py lines 214-238):
404 when the job is unknown, 401 when `job_status.owner_address !=
current_user_address` (exact string comparison), otherwise the full
stored record is returned (the endpoint's `response_model` is
`TrainingStatusResponse`, which includes `temp_model_path` and
`temp_info_path`). -/
def get_training_status (store : JobStore) (job_id current_user_address : String) :
    StatusResult :=
  match get_job store job_id with
  | none => .err 404 ("Training job with ID " ++ job_id ++ " not found.")
  | some job_status =>
      if job_status.owner_address ≠ current_user_address then
        .err 401 "Not authorized to view this training job status."
      else .ok job_status

/-- The fields declared by `TrainRequest` (backend/models/data_models.py
lines 14-21). Pydantic parses a request body into exactly these fields
(extra body keys are ignored); accessing any other attribute on the parsed
object raises `AttributeError`. -/
def trainRequestFields : List String :=
  ["dataset_cid", "model_type", "target_column", "hyperparameters"]

/-- The parsed `TrainRequest` body. -/
structure TrainRequest where
  dataset_cid : String
  model_type : String
  target_column : String
  hyperparameters : List (String × String) := []
deriving DecidableEq

/-- Whether attribute access `train_request.<name>` succeeds on a parsed
`TrainRequest`. -/
def trainRequestHasAttr (name : String) : Bool :=
  trainRequestFields.contains name

/-- Outcome of the start endpoint: `202 Accepted` with the job id and
dataset CID, or an error status. -/
inductive StartResult where
  | accepted202 : String → String → StartResult
  | err : Nat → String → StartResult
deriving DecidableEq

/-- `start_training` (backend/routers/training.py lines 158-212): creates
and stores a `PENDING` `JobRecord`, then schedules the background task.
The call `background_tasks.add_task(..., payment_tx_hash=
train_request.paymentTxHash, payment_nonce=train_request.paymentNonce)`
evaluates its arguments eagerly; `TrainRequest` declares neither
`paymentTxHash` nor `paymentNonce`, so when those attributes are missing
the access raises `AttributeError` and FastAPI answers 500 instead of the
202 response. -/
def start_training (req : TrainRequest) (current_user_address : String)
    (store : JobStore) (job_id : String) (now : Nat) : JobStore × StartResult :=
  let initial : JobRecord :=
    { job_id := job_id, status := "PENDING", message := none
      dataset_cid := req.dataset_cid, owner_address := current_user_address
      created_at := now, updated_at := now }
  let store1 := store_job store initial
  if trainRequestHasAttr "paymentTxHash" && trainRequestHasAttr "paymentNonce" then
    (store1, .accepted202 job_id req.dataset_cid)
  else
    (store1, .err 500 "Internal Server Error")

/-- The terminal job states (spec section 4.5). -/
def terminalStatus (s : String) : Bool :=
  s == "FAILED" || s == "COMPLETED" || s == "UPLOAD_FAILED"

/-- The legal state-machine edges of spec section 4.5: the linear chain
`PENDING -> VERIFYING_PAYMENT -> DOWNLOADING -> TRAINING ->
TRAINING_COMPLETE -> {COMPLETED | UPLOAD_FAILED}` plus `FAILED` from every
non-terminal state. -/
def allowedEdge (a b : String) : Bool :=
  (a == "PENDING" && b == "VERIFYING_PAYMENT") ||
  (a == "VERIFYING_PAYMENT" && b == "DOWNLOADING") ||
  (a == "DOWNLOADING" && b == "TRAINING") ||
  (a == "TRAINING" && b == "TRAINING_COMPLETE") ||
  (a == "TRAINING_COMPLETE" && b == "COMPLETED") ||
  (a == "TRAINING_COMPLETE" && b == "UPLOAD_FAILED") ||
  (!(terminalStatus a) && b == "FAILED")

/-- A status trace starting from `s` follows the state-machine edges. -/
def pathOk : String → List String → Bool
  | _, [] => true
  | s, t :: ts => allowedEdge s t && pathOk t ts

/-! ### Store lemmas -/

/-- Storing a job with a non-empty id makes it retrievable under its id. -/
theorem get_job_store_job_self (s : JobStore) (j : JobRecord) (h : ¬ j.job_id = "") :
    get_job (store_job s j) j.job_id = some j := by
  simp only [get_job, store_job, if_neg h]
  simp [List.find?]

/-- `applyKwargs` never changes `job_id`, `owner_address` or `dataset_cid`. -/
theorem applyKwargs_fixed (j : JobRecord) (kw : UpdateKwargs) :
    (applyKwargs j kw).job_id = j.job_id ∧
    (applyKwargs j kw).owner_address = j.owner_address ∧
    (applyKwargs j kw).dataset_cid = j.dataset_cid := by
  simp [applyKwargs]

/-- Reading the updated job back after `update_job_status`. -/
theorem get_job_update_self (s : JobStore) (id st : String) (m : Option String)
    (now : Nat) (kw : UpdateKwargs) (j : JobRecord) (hj : get_job s id = some j)
    (hid : j.job_id = id) (h : ¬ id = "") :
    get_job (update_job_status s id st m now kw) id =
      some (applyKwargs { j with status := st, message := m, updated_at := now } kw) := by
  have hfix :
      (applyKwargs { j with status := st, message := m, updated_at := now } kw).job_id = id := by
    have := (applyKwargs_fixed { j with status := st, message := m, updated_at := now } kw).1
    simpa [this] using hid
  unfold update_job_status
  rw [hj]
  have := get_job_store_job_self s
    (applyKwargs { j with status := st, message := m, updated_at := now } kw)
    (by rw [hfix]; exact h)
  rwa [hfix] at this

/-- `applyKwargs` never changes `job_id`. -/
theorem applyKwargs_job_id (j : JobRecord) (kw : UpdateKwargs) :
    (applyKwargs j kw).job_id = j.job_id :=
  (applyKwargs_fixed j kw).1

/-! ### C1: the job state machine is respected -/

/-- C1: for every training job, the status field only ever moves along the
edges PENDING -> VERIFYING_PAYMENT -> DOWNLOADING -> TRAINING ->
TRAINING_COMPLETE -> COMPLETED or UPLOAD_FAILED, with FAILED reachable
from every non-terminal state; neither the training worker (invoked on a
PENDING job) nor the publish handler skips a stage, reverses a transition,
or moves a job out of a terminal state (on a terminal job the publish
handler writes no status at all). -/
theorem state_machine_respected
    (env : TrainEnv) (penv : PublishEnv) (store : JobStore)
    (job_id user : String) (mname : Option String) (now now2 : Nat)
    (job : JobRecord) (hget : get_job store job_id = some job) :
    (job.status = "PENDING" →
      pathOk "PENDING" (run_training_job env store job_id now).trace = true)
    ∧ pathOk job.status
        (upload_and_register_model penv store job_id user mname now2).trace = true
    ∧ (terminalStatus job.status = true →
        (upload_and_register_model penv store job_id user mname now2).trace = []) := by
  refine ⟨fun _ => ?_, ?_, ?_⟩
  · unfold run_training_job
    by_cases hf : env.training_service_fee = 0
    · simp only [if_pos hf]; decide
    · simp only [if_neg hf]
      rcases hv : env.verify_payment with e | b
      · simp only [hv]; decide
      · cases b
        · simp only [hv]; decide
        · simp only [hv]
          rcases hd : env.download_file with e | c
          · simp only [hd]; decide
          · cases c
            · simp only [hd]; decide
            · simp only [hd]
              rcases ht : env.train_model with e | o
              · simp only [ht]; decide
              · rcases o with _ | out
                · simp only [ht]; decide
                · simp only [ht]
                  rcases hw : env.write_info_exc with _ | e
                  · simp only [hw]; decide
                  · simp only [hw]; decide
  · unfold upload_and_register_model
    rw [hget]
    dsimp only []
    split_ifs with h1 h2 h3 h4
    · rfl
    · rfl
    · rfl
    · have hs : job.status = "TRAINING_COMPLETE" := not_not.mp h2
      rw [hs]; rfl
    · have hs : job.status = "TRAINING_COMPLETE" := not_not.mp h2
      rcases hm : penv.upload_file (job.temp_model_path.getD "") with _ | c1
      · simp only [hm]; rw [hs]; rfl
      · simp only [hm]
        rcases hi : penv.upload_file (job.temp_info_path.getD "") with _ | c2
        · simp only [hi]; rw [hs]; rfl
        · simp only [hi]
          rcases hr : penv.register_asset_provenance with _ | tx
          · simp only [hr]; rw [hs]; rfl
          · simp only [hr]; rw [hs]; rfl
  · intro hterm
    have hs : job.status ≠ "TRAINING_COMPLETE" := by
      intro h
      rw [h] at hterm
      exact absurd hterm (by decide)
    unfold upload_and_register_model
    rw [hget]
    dsimp only []
    split_ifs with h1
    · rfl
    · rfl

/-- A concrete PENDING job for the C1 witness. -/
def jobC1 : JobRecord :=
  { job_id := "job-c1", status := "PENDING", dataset_cid := "ds1"
    owner_address := "0xabc" }

/-- A store holding `jobC1`. -/
def storeC1 : JobStore := [("job-c1", jobC1)]

/-- A fully successful training oracle for the C1 witness. -/
def envC1 : TrainEnv :=
  { training_service_fee := 100, verify_payment := .ret true
    download_file := .ret true
    train_model := .ret (some
      { saved_model_path := "/tmp/j/model.joblib"
        saved_info_path := "/tmp/j/model_info.json" }) }

/-- A publish oracle with an empty file system for the C1 witness. -/
def penvC1 : PublishEnv :=
  { existing_files := [], upload_file := fun _ => none
    register_asset_provenance := none }

/-- Witness for C1 at a concrete PENDING job and concrete oracles. -/
theorem state_machine_respected_witness :
    (jobC1.status = "PENDING" →
      pathOk "PENDING" (run_training_job envC1 storeC1 "job-c1" 1).trace = true)
    ∧ pathOk jobC1.status
        (upload_and_register_model penvC1 storeC1 "job-c1" "0xabc" none 2).trace = true
    ∧ (terminalStatus jobC1.status = true →
        (upload_and_register_model penvC1 storeC1 "job-c1" "0xabc" none 2).trace = []) :=
  state_machine_respected envC1 penvC1 storeC1 "job-c1" "0xabc" none 1 2 jobC1 (by decide)

/-! ### C7: payment verification fails closed -/

/-- C7: whenever payment verification does not succeed — the verifier
returns false, the verifier raises, or the expected fee configuration is
unset (zero, hence falsy) — the job transitions to FAILED with a
descriptive message, the dataset download is never invoked, the trainer is
never invoked, and the job never enters DOWNLOADING or TRAINING. -/
theorem payment_verification_fails_closed
    (env : TrainEnv) (store : JobStore) (job_id : String) (now : Nat)
    (job : JobRecord) (hget : get_job store job_id = some job)
    (hid : job.job_id = job_id) (hne : ¬ job_id = "")
    (hfail : env.training_service_fee = 0 ∨ env.verify_payment = .ret false ∨
      ∃ e, env.verify_payment = .raise e) :
    (run_training_job env store job_id now).downloadInvoked = false
    ∧ (run_training_job env store job_id now).trainInvoked = false
    ∧ "DOWNLOADING" ∉ (run_training_job env store job_id now).trace
    ∧ "TRAINING" ∉ (run_training_job env store job_id now).trace
    ∧ ∃ j', get_job (run_training_job env store job_id now).store job_id = some j'
        ∧ j'.status = "FAILED"
        ∧ (j'.message = some "Service configuration error."
            ∨ j'.message = some "Service fee payment verification failed."
            ∨ ∃ e, j'.message =
                some ("An unexpected error occurred during training: " ++ e)) := by
  have step1 := get_job_update_self store job_id "VERIFYING_PAYMENT"
    (some "Verifying service fee payment...") now {} job hget hid hne
  have hid1 : (applyKwargs
      { job with status := "VERIFYING_PAYMENT"
                 message := some "Verifying service fee payment..."
                 updated_at := now } {}).job_id = job_id := by
    rw [applyKwargs_job_id]; exact hid
  by_cases hf : env.training_service_fee = 0
  · have hrun : run_training_job env store job_id now =
        ⟨update_job_status
            (update_job_status store job_id "VERIFYING_PAYMENT"
              (some "Verifying service fee payment...") now {})
            job_id "FAILED" (some "Service configuration error.") now {},
          false, false, ["VERIFYING_PAYMENT", "FAILED"]⟩ := by
      unfold run_training_job
      simp [hf]
    rw [hrun]
    have step2 := get_job_update_self _ job_id "FAILED"
      (some "Service configuration error.") now {} _ step1 hid1 hne
    refine ⟨rfl, rfl, by simp, by simp, _, step2, ?_, Or.inl ?_⟩
    · simp [applyKwargs]
    · simp [applyKwargs]
  · rcases hfail with hfc | hv | ⟨e, hv⟩
    · exact absurd hfc hf
    · have hrun : run_training_job env store job_id now =
          ⟨update_job_status
              (update_job_status store job_id "VERIFYING_PAYMENT"
                (some "Verifying service fee payment...") now {})
              job_id "FAILED" (some "Service fee payment verification failed.") now {},
            false, false, ["VERIFYING_PAYMENT", "FAILED"]⟩ := by
        unfold run_training_job
        simp [hf, hv]
      rw [hrun]
      have step2 := get_job_update_self _ job_id "FAILED"
        (some "Service fee payment verification failed.") now {} _ step1 hid1 hne
      refine ⟨rfl, rfl, by simp, by simp, _, step2, ?_, Or.inr (Or.inl ?_)⟩
      · simp [applyKwargs]
      · simp [applyKwargs]
    · have hrun : run_training_job env store job_id now =
          ⟨update_job_status
              (update_job_status store job_id "VERIFYING_PAYMENT"
                (some "Verifying service fee payment...") now {})
              job_id "FAILED"
              (some ("An unexpected error occurred during training: " ++ e)) now {},
            false, false, ["VERIFYING_PAYMENT", "FAILED"]⟩ := by
        unfold run_training_job
        simp [hf, hv]
      rw [hrun]
      have step2 := get_job_update_self _ job_id "FAILED"
        (some ("An unexpected error occurred during training: " ++ e)) now {} _ step1 hid1 hne
      refine ⟨rfl, rfl, by simp, by simp, _, step2, ?_,
        Or.inr (Or.inr ⟨e, ?_⟩)⟩
      · simp [applyKwargs]
      · simp [applyKwargs]

/-- Witness for C7: a concrete job and an oracle whose verifier returns
false. -/
theorem payment_verification_fails_closed_witness :
    (run_training_job
        { training_service_fee := 100, verify_payment := .ret false
          download_file := .ret true, train_model := .ret none }
        storeC1 "job-c1" 1).downloadInvoked = false
    ∧ (run_training_job
        { training_service_fee := 100, verify_payment := .ret false
          download_file := .ret true, train_model := .ret none }
        storeC1 "job-c1" 1).trainInvoked = false
    ∧ "DOWNLOADING" ∉ (run_training_job
        { training_service_fee := 100, verify_payment := .ret false
          download_file := .ret true, train_model := .ret none }
        storeC1 "job-c1" 1).trace
    ∧ "TRAINING" ∉ (run_training_job
        { training_service_fee := 100, verify_payment := .ret false
          download_file := .ret true, train_model := .ret none }
        storeC1 "job-c1" 1).trace
    ∧ ∃ j', get_job (run_training_job
          { training_service_fee := 100, verify_payment := .ret false
            download_file := .ret true, train_model := .ret none }
          storeC1 "job-c1" 1).store "job-c1" = some j'
        ∧ j'.status = "FAILED"
        ∧ (j'.message = some "Service configuration error."
            ∨ j'.message = some "Service fee payment verification failed."
            ∨ ∃ e, j'.message =
                some ("An unexpected error occurred during training: " ++ e)) :=
  payment_verification_fails_closed
    { training_service_fee := 100, verify_payment := .ret false
      download_file := .ret true, train_model := .ret none }
    storeC1 "job-c1" 1 jobC1 (by decide) (by decide) (by decide)
    (Or.inr (Or.inl rfl))

/-- The publish handler, invoked on an existing job that the caller owns
(case-insensitively) but whose status is not TRAINING_COMPLETE, returns a
409 conflict and performs no side effect at all. -/
theorem publish_conflict_when_not_training_complete
    (env2 : PublishEnv) (store1 : JobStore) (job_id user2 : String)
    (mname2 : Option String) (now2 : Nat) (j1 : JobRecord)
    (hget1 : get_job store1 job_id = some j1)
    (howner2 : pyLower j1.owner_address = pyLower user2)
    (hst : ¬ j1.status = "TRAINING_COMPLETE") :
    upload_and_register_model env2 store1 job_id user2 mname2 now2 =
      ⟨store1,
        .err 409 ("Job " ++ job_id ++ " is not ready for upload. Current status: "
          ++ j1.status),
        false, false, false, [], env2.existing_files⟩ := by
  unfold upload_and_register_model
  rw [hget1]
  dsimp only []
  rw [if_neg (not_ne_iff.mpr howner2), if_pos hst]

/-! ### C3: ledger registration failure is not fatal -/

/-- C3: if both uploads succeed but the ledger registration returns no
transaction hash (which `register_asset_provenance` does on every internal
failure, since it catches all exceptions), the job finishes COMPLETED with
`fvm_tx_hash` absent and both content identifiers recorded. -/
theorem ledger_failure_still_completes
    (env : PublishEnv) (store : JobStore) (job_id user : String)
    (mname : Option String) (now : Nat) (job : JobRecord) (mp ip c1 c2 : String)
    (hget : get_job store job_id = some job)
    (hid : job.job_id = job_id) (hne : ¬ job_id = "")
    (howner : pyLower job.owner_address = pyLower user)
    (hstatus : job.status = "TRAINING_COMPLETE")
    (hmp : job.temp_model_path = some mp) (hip : job.temp_info_path = some ip)
    (hmp' : ¬ mp = "") (hip' : ¬ ip = "")
    (hf1 : env.existing_files.contains mp = true)
    (hf2 : env.existing_files.contains ip = true)
    (hu1 : env.upload_file mp = some c1) (hu2 : env.upload_file ip = some c2)
    (hreg : env.register_asset_provenance = none) :
    (upload_and_register_model env store job_id user mname now).result =
      .ok c1 c2 none "Model and metadata uploaded, but FVM provenance registration failed."
    ∧ ∃ j', get_job (upload_and_register_model env store job_id user mname now).store
          job_id = some j'
        ∧ j'.status = "COMPLETED" ∧ j'.fvm_tx_hash = none
        ∧ j'.model_cid = some c1 ∧ j'.model_info_cid = some c2
        ∧ j'.temp_model_path = none ∧ j'.temp_info_path = none := by
  have hred : upload_and_register_model env store job_id user mname now =
      ⟨update_job_status store job_id "COMPLETED"
          (some "Model and metadata uploaded, but FVM provenance registration failed.") now
          { model_cid := some (some c1), model_info_cid := some (some c2)
            fvm_tx_hash := some none
            temp_model_path := some none, temp_info_path := some none },
        .ok c1 c2 none "Model and metadata uploaded, but FVM provenance registration failed.",
        true, true, true, ["COMPLETED"],
        env.existing_files⟩ := by
    unfold upload_and_register_model
    rw [hget]
    dsimp only []
    rw [if_neg (not_ne_iff.mpr howner), if_neg (not_ne_iff.mpr hstatus)]
    rw [hmp, hip]
    have hm1 : mp ∈ env.existing_files := by simpa using hf1
    have hm2 : ip ∈ env.existing_files := by simpa using hf2
    simp [locatorFalsy, hmp', hip', hm1, hm2, hu1, hu2, hreg]
  rw [hred]
  refine ⟨rfl, _,
    get_job_update_self store job_id "COMPLETED"
      (some "Model and metadata uploaded, but FVM provenance registration failed.") now
      _ job hget hid hne, ?_, ?_, ?_, ?_, ?_, ?_⟩
  · simp [applyKwargs]
  · simp [applyKwargs]
  · simp [applyKwargs]
  · simp [applyKwargs]
  · simp [applyKwargs]
  · simp [applyKwargs]

/-- A concrete TRAINING_COMPLETE job with staged files, for publish
witnesses. -/
def jobC3 : JobRecord :=
  { job_id := "job-c3", status := "TRAINING_COMPLETE", dataset_cid := "ds1"
    owner_address := "0xabc"
    temp_model_path := some "/tmp/c3/model.joblib"
    temp_info_path := some "/tmp/c3/model_info.json" }

/-- A store holding `jobC3`. -/
def storeC3 : JobStore := [("job-c3", jobC3)]

/-- Publish oracle for the C3 witness: both uploads succeed, the ledger
registration fails. -/
def penvC3 : PublishEnv :=
  { existing_files := ["/tmp/c3/model.joblib", "/tmp/c3/model_info.json"]
    upload_file := fun p =>
      if p = "/tmp/c3/model.joblib" then some "cidM"
      else if p = "/tmp/c3/model_info.json" then some "cidI"
      else none
    register_asset_provenance := none }

/-- Witness for C3 at concrete inputs. -/
theorem ledger_failure_still_completes_witness :
    (upload_and_register_model penvC3 storeC3 "job-c3" "0xabc" none 3).result =
      .ok "cidM" "cidI" none
        "Model and metadata uploaded, but FVM provenance registration failed."
    ∧ ∃ j', get_job (upload_and_register_model penvC3 storeC3 "job-c3" "0xabc" none 3).store
          "job-c3" = some j'
        ∧ j'.status = "COMPLETED" ∧ j'.fvm_tx_hash = none
        ∧ j'.model_cid = some "cidM" ∧ j'.model_info_cid = some "cidI"
        ∧ j'.temp_model_path = none ∧ j'.temp_info_path = none :=
  ledger_failure_still_completes penvC3 storeC3 "job-c3" "0xabc" none 3 jobC3
    "/tmp/c3/model.joblib" "/tmp/c3/model_info.json" "cidM" "cidI"
    (by decide) (by decide) (by decide) rfl rfl rfl rfl (by decide) (by decide)
    (by decide) (by decide) (by decide) (by decide) rfl

/-! ### C4: a successful model upload is never lost -/

/-- C4: if the model upload succeeds but the metadata upload fails, the
job finishes UPLOAD_FAILED and the already-obtained model CID is still
recorded on the job record. -/
theorem model_cid_recorded_on_metadata_upload_failure
    (env : PublishEnv) (store : JobStore) (job_id user : String)
    (mname : Option String) (now : Nat) (job : JobRecord) (mp ip c1 : String)
    (hget : get_job store job_id = some job)
    (hid : job.job_id = job_id) (hne : ¬ job_id = "")
    (howner : pyLower job.owner_address = pyLower user)
    (hstatus : job.status = "TRAINING_COMPLETE")
    (hmp : job.temp_model_path = some mp) (hip : job.temp_info_path = some ip)
    (hmp' : ¬ mp = "") (hip' : ¬ ip = "")
    (hf1 : env.existing_files.contains mp = true)
    (hf2 : env.existing_files.contains ip = true)
    (hu1 : env.upload_file mp = some c1) (hu2 : env.upload_file ip = none) :
    (upload_and_register_model env store job_id user mname now).result =
      .err 500 "Failed to upload model metadata file."
    ∧ ∃ j', get_job (upload_and_register_model env store job_id user mname now).store
          job_id = some j'
        ∧ j'.status = "UPLOAD_FAILED" ∧ j'.model_cid = some c1
        ∧ j'.model_info_cid = none ∧ j'.fvm_tx_hash = none
        ∧ j'.temp_model_path = none ∧ j'.temp_info_path = none := by
  have hred : upload_and_register_model env store job_id user mname now =
      ⟨update_job_status store job_id "UPLOAD_FAILED"
          (some "Failed to upload model metadata file.") now
          { model_cid := some (some c1), model_info_cid := some none
            fvm_tx_hash := some none
            temp_model_path := some none, temp_info_path := some none },
        .err 500 "Failed to upload model metadata file.",
        true, true, false, ["UPLOAD_FAILED"],
        env.existing_files⟩ := by
    unfold upload_and_register_model
    rw [hget]
    dsimp only []
    rw [if_neg (not_ne_iff.mpr howner), if_neg (not_ne_iff.mpr hstatus)]
    rw [hmp, hip]
    have hm1 : mp ∈ env.existing_files := by simpa using hf1
    have hm2 : ip ∈ env.existing_files := by simpa using hf2
    simp [locatorFalsy, hmp', hip', hm1, hm2, hu1, hu2]
  rw [hred]
  refine ⟨rfl, _,
    get_job_update_self store job_id "UPLOAD_FAILED"
      (some "Failed to upload model metadata file.") now
      _ job hget hid hne, ?_, ?_, ?_, ?_, ?_, ?_⟩
  · simp [applyKwargs]
  · simp [applyKwargs]
  · simp [applyKwargs]
  · simp [applyKwargs]
  · simp [applyKwargs]
  · simp [applyKwargs]

/-- Publish oracle for the C4 witness: the model upload succeeds, the
metadata upload fails. -/
def penvC4 : PublishEnv :=
  { existing_files := ["/tmp/c3/model.joblib", "/tmp/c3/model_info.json"]
    upload_file := fun p =>
      if p = "/tmp/c3/model.joblib" then some "cidM" else none
    register_asset_provenance := some "0xtx" }

/-- Witness for C4 at concrete inputs. -/
theorem model_cid_recorded_on_metadata_upload_failure_witness :
    (upload_and_register_model penvC4 storeC3 "job-c3" "0xabc" none 3).result =
      .err 500 "Failed to upload model metadata file."
    ∧ ∃ j', get_job (upload_and_register_model penvC4 storeC3 "job-c3" "0xabc" none 3).store
          "job-c3" = some j'
        ∧ j'.status = "UPLOAD_FAILED" ∧ j'.model_cid = some "cidM"
        ∧ j'.model_info_cid = none ∧ j'.fvm_tx_hash = none
        ∧ j'.temp_model_path = none ∧ j'.temp_info_path = none :=
  model_cid_recorded_on_metadata_upload_failure penvC4 storeC3 "job-c3" "0xabc" none 3 jobC3
    "/tmp/c3/model.joblib" "/tmp/c3/model_info.json" "cidM"
    (by decide) (by decide) (by decide) rfl rfl rfl rfl (by decide) (by decide)
    (by decide) (by decide) (by decide) (by decide)

/-! ### C5: a second publish on the same job is a conflict -/

/-- C5: once the publish handler has been invoked on an owned
TRAINING_COMPLETE job with its staged locators present (whatever the
outcome of the file checks, uploads and registration), the job's status is
terminal and no longer TRAINING_COMPLETE, and any second invocation on the
same job id returns a 409 conflict, leaves the store unchanged, and
performs no blob-store upload and no ledger registration. -/
theorem publish_twice_rejected
    (env env2 : PublishEnv) (store : JobStore) (job_id user user2 : String)
    (mname mname2 : Option String) (now now2 : Nat) (job : JobRecord) (mp ip : String)
    (hget : get_job store job_id = some job)
    (hid : job.job_id = job_id) (hne : ¬ job_id = "")
    (howner : pyLower job.owner_address = pyLower user)
    (hstatus : job.status = "TRAINING_COMPLETE")
    (hmp : job.temp_model_path = some mp) (hip : job.temp_info_path = some ip)
    (hmp' : ¬ mp = "") (hip' : ¬ ip = "")
    (howner2 : pyLower job.owner_address = pyLower user2) :
    ∃ j', get_job (upload_and_register_model env store job_id user mname now).store
          job_id = some j'
      ∧ terminalStatus j'.status = true
      ∧ ¬ j'.status = "TRAINING_COMPLETE"
      ∧ upload_and_register_model env2
          (upload_and_register_model env store job_id user mname now).store
          job_id user2 mname2 now2 =
        ⟨(upload_and_register_model env store job_id user mname now).store,
          .err 409 ("Job " ++ job_id ++ " is not ready for upload. Current status: "
            ++ j'.status),
          false, false, false, [], env2.existing_files⟩ := by
  have hbase :
      ∀ st : String, ∀ m : Option String, ∀ kw : UpdateKwargs,
        upload_and_register_model env store job_id user mname now =
          ⟨update_job_status store job_id st m now kw, (upload_and_register_model env
            store job_id user mname now).result,
            (upload_and_register_model env store job_id user mname now).modelUploadInvoked,
            (upload_and_register_model env store job_id user mname now).infoUploadInvoked,
            (upload_and_register_model env store job_id user mname now).ledgerInvoked,
            (upload_and_register_model env store job_id user mname now).trace,
            (upload_and_register_model env store job_id user mname now).existing_files⟩ →
        terminalStatus st = true → ¬ st = "TRAINING_COMPLETE" →
        ∃ j', get_job (upload_and_register_model env store job_id user mname now).store
              job_id = some j'
          ∧ terminalStatus j'.status = true
          ∧ ¬ j'.status = "TRAINING_COMPLETE"
          ∧ upload_and_register_model env2
              (upload_and_register_model env store job_id user mname now).store
              job_id user2 mname2 now2 =
            ⟨(upload_and_register_model env store job_id user mname now).store,
              .err 409 ("Job " ++ job_id ++ " is not ready for upload. Current status: "
                ++ j'.status),
              false, false, false, [], env2.existing_files⟩ := by
    intro st m kw heq hterm hnetc
    have step := get_job_update_self store job_id st m now kw job hget hid hne
    have hget1 : get_job (upload_and_register_model env store job_id user mname now).store
        job_id = some (applyKwargs { job with status := st, message := m, updated_at := now } kw) := by
      rw [heq]; exact step
    refine ⟨_, hget1, ?_, ?_,
      publish_conflict_when_not_training_complete env2 _ job_id user2 mname2 now2 _ hget1
        ?_ ?_⟩
    · simpa [applyKwargs] using hterm
    · simpa [applyKwargs] using hnetc
    · have hown := (applyKwargs_fixed { job with status := st, message := m, updated_at := now } kw).2.1
      simp only [hown]
      exact howner2
    · simpa [applyKwargs] using hnetc
  cases hcm : env.existing_files.contains mp
  · apply hbase "FAILED" (some "Required temporary files for upload were missing.") {}
    · unfold upload_and_register_model
      rw [hget]
      dsimp only []
      rw [if_neg (not_ne_iff.mpr howner), if_neg (not_ne_iff.mpr hstatus)]
      rw [hmp, hip]
      have hm1 : mp ∉ env.existing_files := by simpa using hcm
      simp [locatorFalsy, hmp', hip', hm1]
    · decide
    · decide
  · cases hci : env.existing_files.contains ip
    · apply hbase "FAILED" (some "Required temporary files for upload were missing.") {}
      · unfold upload_and_register_model
        rw [hget]
        dsimp only []
        rw [if_neg (not_ne_iff.mpr howner), if_neg (not_ne_iff.mpr hstatus)]
        rw [hmp, hip]
        have hm2 : ip ∉ env.existing_files := by simpa using hci
        simp [locatorFalsy, hmp', hip', hm2]
      · decide
      · decide
    · have hm1 : mp ∈ env.existing_files := by simpa using hcm
      have hm2 : ip ∈ env.existing_files := by simpa using hci
      rcases hu1 : env.upload_file mp with _ | c1
      · apply hbase "UPLOAD_FAILED" (some "Failed to upload trained model file.")
          { model_cid := some none, model_info_cid := some none, fvm_tx_hash := some none
            temp_model_path := some none, temp_info_path := some none }
        · unfold upload_and_register_model
          rw [hget]
          dsimp only []
          rw [if_neg (not_ne_iff.mpr howner), if_neg (not_ne_iff.mpr hstatus)]
          rw [hmp, hip]
          simp [locatorFalsy, hmp', hip', hm1, hm2, hu1]
        · decide
        · decide
      · rcases hu2 : env.upload_file ip with _ | c2
        · apply hbase "UPLOAD_FAILED" (some "Failed to upload model metadata file.")
            { model_cid := some (some c1), model_info_cid := some none
              fvm_tx_hash := some none
              temp_model_path := some none, temp_info_path := some none }
          · unfold upload_and_register_model
            rw [hget]
            dsimp only []
            rw [if_neg (not_ne_iff.mpr howner), if_neg (not_ne_iff.mpr hstatus)]
            rw [hmp, hip]
            simp [locatorFalsy, hmp', hip', hm1, hm2, hu1, hu2]
          · decide
          · decide
        · rcases hr : env.register_asset_provenance with _ | tx
          · apply hbase "COMPLETED"
              (some "Model and metadata uploaded, but FVM provenance registration failed.")
              { model_cid := some (some c1), model_info_cid := some (some c2)
                fvm_tx_hash := some none
                temp_model_path := some none, temp_info_path := some none }
            · unfold upload_and_register_model
              rw [hget]
              dsimp only []
              rw [if_neg (not_ne_iff.mpr howner), if_neg (not_ne_iff.mpr hstatus)]
              rw [hmp, hip]
              simp [locatorFalsy, hmp', hip', hm1, hm2, hu1, hu2, hr]
            · decide
            · decide
          · apply hbase "COMPLETED"
              (some "Model uploaded and provenance registered successfully.")
              { model_cid := some (some c1), model_info_cid := some (some c2)
                fvm_tx_hash := some (some tx)
                temp_model_path := some none, temp_info_path := some none }
            · unfold upload_and_register_model
              rw [hget]
              dsimp only []
              rw [if_neg (not_ne_iff.mpr howner), if_neg (not_ne_iff.mpr hstatus)]
              rw [hmp, hip]
              simp [locatorFalsy, hmp', hip', hm1, hm2, hu1, hu2, hr]
            · decide
            · decide

/-- Witness for C5: both publish calls at concrete inputs. -/
theorem publish_twice_rejected_witness :
    ∃ j', get_job (upload_and_register_model penvC3 storeC3 "job-c3" "0xabc" none 3).store
          "job-c3" = some j'
      ∧ terminalStatus j'.status = true
      ∧ ¬ j'.status = "TRAINING_COMPLETE"
      ∧ upload_and_register_model penvC3
          (upload_and_register_model penvC3 storeC3 "job-c3" "0xabc" none 3).store
          "job-c3" "0xabc" none 4 =
        ⟨(upload_and_register_model penvC3 storeC3 "job-c3" "0xabc" none 3).store,
          .err 409 ("Job " ++ "job-c3" ++ " is not ready for upload. Current status: "
            ++ j'.status),
          false, false, false, [], penvC3.existing_files⟩ :=
  publish_twice_rejected penvC3 penvC3 storeC3 "job-c3" "0xabc" "0xabc" none none 3 4 jobC3
    "/tmp/c3/model.joblib" "/tmp/c3/model_info.json"
    (by decide) (by decide) (by decide) rfl rfl rfl rfl (by decide) (by decide) rfl

/-- Existential form of `get_job_update_self`, exposing the updated job's
fields for chained reasoning. -/
theorem get_job_update_fields (s : JobStore) (id st : String) (m : Option String)
    (now : Nat) (kw : UpdateKwargs) (j : JobRecord) (hj : get_job s id = some j)
    (hid : j.job_id = id) (h : ¬ id = "") :
    ∃ j₂, get_job (update_job_status s id st m now kw) id = some j₂
      ∧ j₂.job_id = id ∧ j₂.status = st ∧ j₂.message = m
      ∧ j₂.owner_address = j.owner_address
      ∧ j₂.temp_model_path = kw.temp_model_path.getD j.temp_model_path
      ∧ j₂.temp_info_path = kw.temp_info_path.getD j.temp_info_path
      ∧ j₂.model_cid = kw.model_cid.getD j.model_cid
      ∧ j₂.model_info_cid = kw.model_info_cid.getD j.model_info_cid
      ∧ j₂.fvm_tx_hash = kw.fvm_tx_hash.getD j.fvm_tx_hash := by
  refine ⟨_, get_job_update_self s id st m now kw j hj hid h, ?_, ?_, ?_, ?_, ?_, ?_, ?_, ?_, ?_⟩
  · simp [applyKwargs_job_id, hid]
  · simp [applyKwargs]
  · simp [applyKwargs]
  · simp [applyKwargs]
  · simp [applyKwargs]
  · simp [applyKwargs]
  · simp [applyKwargs]
  · simp [applyKwargs]
  · simp [applyKwargs]

/-! ### C2: the staged-file locators and the job lifecycle -/

/-- Publish oracle with an empty file system: the staged files are gone. -/
def penvC2 : PublishEnv :=
  { existing_files := [], upload_file := fun _ => none
    register_asset_provenance := none }

/-- Counterexample for C2: publishing a TRAINING_COMPLETE job whose staged
files are missing from disk marks the job FAILED but leaves both staged
locators populated, so the locators are not nulled on every consuming
path, and non-null locators do not imply TRAINING_COMPLETE. -/
theorem staged_locators_counterexample :
    (upload_and_register_model penvC2 storeC3 "job-c3" "0xabc" none 3).result =
      .err 404
        "Required files for upload not found. The job may have expired or encountered an error."
    ∧ get_job (upload_and_register_model penvC2 storeC3 "job-c3" "0xabc" none 3).store
        "job-c3" =
      some { job_id := "job-c3", status := "FAILED"
             message := some "Required temporary files for upload were missing."
             dataset_cid := "ds1", owner_address := "0xabc", updated_at := 3
             temp_model_path := some "/tmp/c3/model.joblib"
             temp_info_path := some "/tmp/c3/model_info.json" } := by
  constructor
  · decide
  · decide

/-- C2 (amended): the locators are set exactly by the transition to
TRAINING_COMPLETE (for a job whose locators start out null, the worker
leaves them non-null iff it ends in TRAINING_COMPLETE), and every publish
path that reaches the upload phase nulls both locators regardless of
outcome; but the missing-files failure path marks the job FAILED while
leaving both locators populated. -/
theorem staged_locators_lifecycle
    (env : TrainEnv) (penv : PublishEnv)
    (wstore pstore : JobStore) (wid pid user : String)
    (mname : Option String) (now now2 : Nat) (wjob pjob : JobRecord) (mp ip : String)
    (hwget : get_job wstore wid = some wjob) (hwid : wjob.job_id = wid)
    (hwne : ¬ wid = "")
    (hwm0 : wjob.temp_model_path = none) (hwi0 : wjob.temp_info_path = none)
    (hpget : get_job pstore pid = some pjob) (hpid : pjob.job_id = pid)
    (hpne : ¬ pid = "")
    (hpowner : pyLower pjob.owner_address = pyLower user)
    (hpstatus : pjob.status = "TRAINING_COMPLETE")
    (hpmp : pjob.temp_model_path = some mp) (hpip : pjob.temp_info_path = some ip)
    (hmp' : ¬ mp = "") (hip' : ¬ ip = "") :
    (∃ j', get_job (run_training_job env wstore wid now).store wid = some j'
      ∧ (j'.status = "TRAINING_COMPLETE" →
          ¬ j'.temp_model_path = none ∧ ¬ j'.temp_info_path = none)
      ∧ (¬ j'.status = "TRAINING_COMPLETE" →
          j'.temp_model_path = none ∧ j'.temp_info_path = none))
    ∧ (penv.existing_files.contains mp = true → penv.existing_files.contains ip = true →
        ∃ j', get_job (upload_and_register_model penv pstore pid user mname now2).store
            pid = some j'
          ∧ j'.temp_model_path = none ∧ j'.temp_info_path = none)
    ∧ (¬ (penv.existing_files.contains mp = true ∧
            penv.existing_files.contains ip = true) →
        ∃ j', get_job (upload_and_register_model penv pstore pid user mname now2).store
            pid = some j'
          ∧ j'.status = "FAILED"
          ∧ j'.temp_model_path = some mp ∧ j'.temp_info_path = some ip) := by
  obtain ⟨j1, hj1, hid1, hst1, _, _, htm1, hti1, _, _, _⟩ :=
    get_job_update_fields wstore wid "VERIFYING_PAYMENT"
      (some "Verifying service fee payment...") now {} wjob hwget hwid hwne
  have htm1' : j1.temp_model_path = none := by
    rw [htm1]; simpa using hwm0
  have hti1' : j1.temp_info_path = none := by
    rw [hti1]; simpa using hwi0
  refine ⟨?_, ?_, ?_⟩
  · by_cases hf : env.training_service_fee = 0
    · obtain ⟨j2, hj2, _, hst2, _, _, htm2, hti2, _, _, _⟩ :=
        get_job_update_fields _ wid "FAILED" (some "Service configuration error.")
          now {} j1 hj1 hid1 hwne
      refine ⟨j2, ?_, ?_, fun _ => ⟨?_, ?_⟩⟩
      · simp only [run_training_job, if_pos hf]
        exact hj2
      · intro h; rw [hst2] at h; exact absurd h (by decide)
      · rw [htm2]; simpa using htm1'
      · rw [hti2]; simpa using hti1'
    · rcases hv : env.verify_payment with e | b
      · obtain ⟨j2, hj2, _, hst2, _, _, htm2, hti2, _, _, _⟩ :=
          get_job_update_fields _ wid "FAILED"
            (some ("An unexpected error occurred during training: " ++ e))
            now {} j1 hj1 hid1 hwne
        refine ⟨j2, ?_, ?_, fun _ => ⟨?_, ?_⟩⟩
        · simp only [run_training_job, if_neg hf, hv]
          exact hj2
        · intro h; rw [hst2] at h; exact absurd h (by decide)
        · rw [htm2]; simpa using htm1'
        · rw [hti2]; simpa using hti1'
      · cases b
        · obtain ⟨j2, hj2, _, hst2, _, _, htm2, hti2, _, _, _⟩ :=
            get_job_update_fields _ wid "FAILED"
              (some "Service fee payment verification failed.") now {} j1 hj1 hid1 hwne
          refine ⟨j2, ?_, ?_, fun _ => ⟨?_, ?_⟩⟩
          · simp only [run_training_job, if_neg hf, hv]
            exact hj2
          · intro h; rw [hst2] at h; exact absurd h (by decide)
          · rw [htm2]; simpa using htm1'
          · rw [hti2]; simpa using hti1'
        · obtain ⟨j2, hj2, hid2, hst2, _, _, htm2, hti2, _, _, _⟩ :=
            get_job_update_fields _ wid "DOWNLOADING" none now {} j1 hj1 hid1 hwne
          have htm2' : j2.temp_model_path = none := by
            rw [htm2]; simpa using htm1'
          have hti2' : j2.temp_info_path = none := by
            rw [hti2]; simpa using hti1'
          rcases hd : env.download_file with e | c
          · obtain ⟨j3, hj3, _, hst3, _, _, htm3, hti3, _, _, _⟩ :=
              get_job_update_fields _ wid "FAILED"
                (some ("An unexpected error occurred during training: " ++ e))
                now {} j2 hj2 hid2 hwne
            refine ⟨j3, ?_, ?_, fun _ => ⟨?_, ?_⟩⟩
            · simp only [run_training_job, if_neg hf, hv, hd]
              exact hj3
            · intro h; rw [hst3] at h; exact absurd h (by decide)
            · rw [htm3]; simpa using htm2'
            · rw [hti3]; simpa using hti2'
          · cases c
            · obtain ⟨j3, hj3, _, hst3, _, _, htm3, hti3, _, _, _⟩ :=
                get_job_update_fields _ wid "FAILED"
                  (some "Failed to download dataset from storage.") now {} j2 hj2 hid2 hwne
              refine ⟨j3, ?_, ?_, fun _ => ⟨?_, ?_⟩⟩
              · simp only [run_training_job, if_neg hf, hv, hd]
                exact hj3
              · intro h; rw [hst3] at h; exact absurd h (by decide)
              · rw [htm3]; simpa using htm2'
              · rw [hti3]; simpa using hti2'
            · obtain ⟨j3, hj3, hid3, hst3, _, _, htm3, hti3, _, _, _⟩ :=
                get_job_update_fields _ wid "TRAINING" none now {} j2 hj2 hid2 hwne
              have htm3' : j3.temp_model_path = none := by
                rw [htm3]; simpa using htm2'
              have hti3' : j3.temp_info_path = none := by
                rw [hti3]; simpa using hti2'
              rcases ht : env.train_model with e | o
              · obtain ⟨j4, hj4, _, hst4, _, _, htm4, hti4, _, _, _⟩ :=
                  get_job_update_fields _ wid "FAILED"
                    (some ("An unexpected error occurred during training: " ++ e))
                    now {} j3 hj3 hid3 hwne
                refine ⟨j4, ?_, ?_, fun _ => ⟨?_, ?_⟩⟩
                · simp only [run_training_job, if_neg hf, hv, hd, ht]
                  exact hj4
                · intro h; rw [hst4] at h; exact absurd h (by decide)
                · rw [htm4]; simpa using htm3'
                · rw [hti4]; simpa using hti3'
              · rcases o with _ | out
                · obtain ⟨j4, hj4, _, hst4, _, _, htm4, hti4, _, _, _⟩ :=
                    get_job_update_fields _ wid "FAILED"
                      (some "Model training process failed.") now {} j3 hj3 hid3 hwne
                  refine ⟨j4, ?_, ?_, fun _ => ⟨?_, ?_⟩⟩
                  · simp only [run_training_job, if_neg hf, hv, hd, ht]
                    exact hj4
                  · intro h; rw [hst4] at h; exact absurd h (by decide)
                  · rw [htm4]; simpa using htm3'
                  · rw [hti4]; simpa using hti3'
                · rcases hw : env.write_info_exc with _ | e
                  · obtain ⟨j4, hj4, _, hst4, _, _, htm4, hti4, _, _, _⟩ :=
                      get_job_update_fields _ wid "TRAINING_COMPLETE"
                        (some "Model training finished. Ready for upload and registration.")
                        now
                        { accuracy := some out.accuracy
                          temp_model_path := some (some out.saved_model_path)
                          temp_info_path := some (some out.saved_info_path) }
                        j3 hj3 hid3 hwne
                    refine ⟨j4, ?_, fun _ => ⟨?_, ?_⟩, ?_⟩
                    · simp only [run_training_job, if_neg hf, hv, hd, ht, hw]
                      exact hj4
                    · rw [htm4]; simp
                    · rw [hti4]; simp
                    · intro h; exact absurd hst4 h
                  · obtain ⟨j4, hj4, _, hst4, _, _, htm4, hti4, _, _, _⟩ :=
                      get_job_update_fields _ wid "FAILED"
                        (some ("An unexpected error occurred during training: " ++ e))
                        now {} j3 hj3 hid3 hwne
                    refine ⟨j4, ?_, ?_, fun _ => ⟨?_, ?_⟩⟩
                    · simp only [run_training_job, if_neg hf, hv, hd, ht, hw]
                      exact hj4
                    · intro h; rw [hst4] at h; exact absurd h (by decide)
                    · rw [htm4]; simpa using htm3'
                    · rw [hti4]; simpa using hti3'
  · intro hc1 hc2
    have hm1 : mp ∈ penv.existing_files := by simpa using hc1
    have hm2 : ip ∈ penv.existing_files := by simpa using hc2
    rcases hu1 : penv.upload_file mp with _ | c1
    · obtain ⟨j', hj', _, _, _, _, htm, hti, _, _, _⟩ :=
        get_job_update_fields pstore pid "UPLOAD_FAILED"
          (some "Failed to upload trained model file.") now2
          { model_cid := some none, model_info_cid := some none, fvm_tx_hash := some none
            temp_model_path := some none, temp_info_path := some none }
          pjob hpget hpid hpne
      refine ⟨j', ?_, by rw [htm]; simp, by rw [hti]; simp⟩
      have hred : (upload_and_register_model penv pstore pid user mname now2).store =
          update_job_status pstore pid "UPLOAD_FAILED"
            (some "Failed to upload trained model file.") now2
            { model_cid := some none, model_info_cid := some none, fvm_tx_hash := some none
              temp_model_path := some none, temp_info_path := some none } := by
        unfold upload_and_register_model
        rw [hpget]
        dsimp only []
        rw [if_neg (not_ne_iff.mpr hpowner), if_neg (not_ne_iff.mpr hpstatus)]
        rw [hpmp, hpip]
        simp [locatorFalsy, hmp', hip', hm1, hm2, hu1]
      rw [hred]; exact hj'
    · rcases hu2 : penv.upload_file ip with _ | c2
      · obtain ⟨j', hj', _, _, _, _, htm, hti, _, _, _⟩ :=
          get_job_update_fields pstore pid "UPLOAD_FAILED"
            (some "Failed to upload model metadata file.") now2
            { model_cid := some (some c1), model_info_cid := some none
              fvm_tx_hash := some none
              temp_model_path := some none, temp_info_path := some none }
            pjob hpget hpid hpne
        refine ⟨j', ?_, by rw [htm]; simp, by rw [hti]; simp⟩
        have hred : (upload_and_register_model penv pstore pid user mname now2).store =
            update_job_status pstore pid "UPLOAD_FAILED"
              (some "Failed to upload model metadata file.") now2
              { model_cid := some (some c1), model_info_cid := some none
                fvm_tx_hash := some none
                temp_model_path := some none, temp_info_path := some none } := by
          unfold upload_and_register_model
          rw [hpget]
          dsimp only []
          rw [if_neg (not_ne_iff.mpr hpowner), if_neg (not_ne_iff.mpr hpstatus)]
          rw [hpmp, hpip]
          simp [locatorFalsy, hmp', hip', hm1, hm2, hu1, hu2]
        rw [hred]; exact hj'
      · rcases hr : penv.register_asset_provenance with _ | tx
        · obtain ⟨j', hj', _, _, _, _, htm, hti, _, _, _⟩ :=
            get_job_update_fields pstore pid "COMPLETED"
              (some "Model and metadata uploaded, but FVM provenance registration failed.")
              now2
              { model_cid := some (some c1), model_info_cid := some (some c2)
                fvm_tx_hash := some none
                temp_model_path := some none, temp_info_path := some none }
              pjob hpget hpid hpne
          refine ⟨j', ?_, by rw [htm]; simp, by rw [hti]; simp⟩
          have hred : (upload_and_register_model penv pstore pid user mname now2).store =
              update_job_status pstore pid "COMPLETED"
                (some "Model and metadata uploaded, but FVM provenance registration failed.")
                now2
                { model_cid := some (some c1), model_info_cid := some (some c2)
                  fvm_tx_hash := some none
                  temp_model_path := some none, temp_info_path := some none } := by
            unfold upload_and_register_model
            rw [hpget]
            dsimp only []
            rw [if_neg (not_ne_iff.mpr hpowner), if_neg (not_ne_iff.mpr hpstatus)]
            rw [hpmp, hpip]
            simp [locatorFalsy, hmp', hip', hm1, hm2, hu1, hu2, hr]
          rw [hred]; exact hj'
        · obtain ⟨j', hj', _, _, _, _, htm, hti, _, _, _⟩ :=
            get_job_update_fields pstore pid "COMPLETED"
              (some "Model uploaded and provenance registered successfully.") now2
              { model_cid := some (some c1), model_info_cid := some (some c2)
                fvm_tx_hash := some (some tx)
                temp_model_path := some none, temp_info_path := some none }
              pjob hpget hpid hpne
          refine ⟨j', ?_, by rw [htm]; simp, by rw [hti]; simp⟩
          have hred : (upload_and_register_model penv pstore pid user mname now2).store =
              update_job_status pstore pid "COMPLETED"
                (some "Model uploaded and provenance registered successfully.") now2
                { model_cid := some (some c1), model_info_cid := some (some c2)
                  fvm_tx_hash := some (some tx)
                  temp_model_path := some none, temp_info_path := some none } := by
            unfold upload_and_register_model
            rw [hpget]
            dsimp only []
            rw [if_neg (not_ne_iff.mpr hpowner), if_neg (not_ne_iff.mpr hpstatus)]
            rw [hpmp, hpip]
            simp [locatorFalsy, hmp', hip', hm1, hm2, hu1, hu2, hr]
          rw [hred]; exact hj'
  · intro hc
    obtain ⟨j', hj', _, hst, _, _, htm, hti, _, _, _⟩ :=
      get_job_update_fields pstore pid "FAILED"
        (some "Required temporary files for upload were missing.") now2 {}
        pjob hpget hpid hpne
    have hred : (upload_and_register_model penv pstore pid user mname now2).store =
        update_job_status pstore pid "FAILED"
          (some "Required temporary files for upload were missing.") now2 {} := by
      unfold upload_and_register_model
      rw [hpget]
      dsimp only []
      rw [if_neg (not_ne_iff.mpr hpowner), if_neg (not_ne_iff.mpr hpstatus)]
      rw [hpmp, hpip]
      rcases not_and_or.mp hc with h1 | h1
      · have hm1 : mp ∉ penv.existing_files := by
          intro hmem
          exact h1 (by simpa using hmem)
        simp [locatorFalsy, hmp', hip', hm1]
      · have hm2 : ip ∉ penv.existing_files := by
          intro hmem
          exact h1 (by simpa using hmem)
        simp [locatorFalsy, hmp', hip', hm2]
    refine ⟨j', ?_, hst, ?_, ?_⟩
    · rw [hred]; exact hj'
    · rw [htm]; simpa using hpmp
    · rw [hti]; simpa using hpip

/-- Witness for C2 (amended) at a concrete fresh job, a successful worker
oracle, and a concrete TRAINING_COMPLETE job with both staged files on
disk. -/
theorem staged_locators_lifecycle_witness :
    (∃ j', get_job (run_training_job envC1 storeC1 "job-c1" 1).store "job-c1" = some j'
      ∧ (j'.status = "TRAINING_COMPLETE" →
          ¬ j'.temp_model_path = none ∧ ¬ j'.temp_info_path = none)
      ∧ (¬ j'.status = "TRAINING_COMPLETE" →
          j'.temp_model_path = none ∧ j'.temp_info_path = none))
    ∧ (penvC3.existing_files.contains "/tmp/c3/model.joblib" = true →
        penvC3.existing_files.contains "/tmp/c3/model_info.json" = true →
        ∃ j', get_job (upload_and_register_model penvC3 storeC3 "job-c3" "0xabc" none 3).store
            "job-c3" = some j'
          ∧ j'.temp_model_path = none ∧ j'.temp_info_path = none)
    ∧ (¬ (penvC3.existing_files.contains "/tmp/c3/model.joblib" = true ∧
            penvC3.existing_files.contains "/tmp/c3/model_info.json" = true) →
        ∃ j', get_job (upload_and_register_model penvC3 storeC3 "job-c3" "0xabc" none 3).store
            "job-c3" = some j'
          ∧ j'.status = "FAILED"
          ∧ j'.temp_model_path = some "/tmp/c3/model.joblib"
          ∧ j'.temp_info_path = some "/tmp/c3/model_info.json") :=
  staged_locators_lifecycle envC1 penvC3 storeC1 storeC3 "job-c1" "job-c3" "0xabc"
    none 1 3 jobC1 jobC3 "/tmp/c3/model.joblib" "/tmp/c3/model_info.json"
    (by decide) (by decide) (by decide) rfl rfl
    (by decide) (by decide) (by decide) rfl rfl rfl rfl (by decide) (by decide)

/-! ### C6: TRAINING_COMPLETE jobs with missing staged state -/

/-- An owned TRAINING_COMPLETE job whose staged locators are absent. -/
def jobC6 : JobRecord :=
  { job_id := "job-c6", status := "TRAINING_COMPLETE", dataset_cid := "ds1"
    owner_address := "0xabc" }

/-- A store holding `jobC6`. -/
def storeC6 : JobStore := [("job-c6", jobC6)]

/-- Counterexample for C6: when the staged locators are absent, the publish
handler does not mark the job FAILED and does not return not-found: it
returns a 500 internal error and leaves the job unchanged (still
TRAINING_COMPLETE). -/
theorem missing_locator_counterexample :
    (upload_and_register_model penvC2 storeC6 "job-c6" "0xabc" none 7).result =
      .err 500 "Internal error: Training output file paths not found."
    ∧ (upload_and_register_model penvC2 storeC6 "job-c6" "0xabc" none 7).store = storeC6
    ∧ get_job (upload_and_register_model penvC2 storeC6 "job-c6" "0xabc" none 7).store
        "job-c6" = some jobC6 := by
  refine ⟨by decide, by decide, by decide⟩

/-- C6 (amended): on an existing, owned, TRAINING_COMPLETE job, if a staged
locator is absent (or empty) the handler returns a 500 internal error with
no status update and no side effect; if both locators are present but a
staged file no longer exists on disk, the handler marks the job FAILED
with the missing-files message and returns not-found, with no upload and
no ledger side effect. -/
theorem missing_staged_files_behavior
    (env : PublishEnv) (store : JobStore) (job_id user : String)
    (mname : Option String) (now : Nat) (job : JobRecord) (mp ip : String)
    (hget : get_job store job_id = some job)
    (hid : job.job_id = job_id) (hne : ¬ job_id = "")
    (howner : pyLower job.owner_address = pyLower user)
    (hstatus : job.status = "TRAINING_COMPLETE") :
    ((locatorFalsy job.temp_model_path || locatorFalsy job.temp_info_path) = true →
      upload_and_register_model env store job_id user mname now =
        ⟨store, .err 500 "Internal error: Training output file paths not found.",
          false, false, false, [], env.existing_files⟩)
    ∧ (job.temp_model_path = some mp → job.temp_info_path = some ip →
        ¬ mp = "" → ¬ ip = "" →
        ¬ (env.existing_files.contains mp = true ∧
            env.existing_files.contains ip = true) →
        (upload_and_register_model env store job_id user mname now).result =
          .err 404
            "Required files for upload not found. The job may have expired or encountered an error."
        ∧ (upload_and_register_model env store job_id user mname now).modelUploadInvoked = false
        ∧ (upload_and_register_model env store job_id user mname now).infoUploadInvoked = false
        ∧ (upload_and_register_model env store job_id user mname now).ledgerInvoked = false
        ∧ ∃ j', get_job (upload_and_register_model env store job_id user mname now).store
              job_id = some j'
            ∧ j'.status = "FAILED"
            ∧ j'.message = some "Required temporary files for upload were missing.") := by
  constructor
  · intro hfalsy
    unfold upload_and_register_model
    rw [hget]
    dsimp only []
    rw [if_neg (not_ne_iff.mpr howner), if_neg (not_ne_iff.mpr hstatus), if_pos hfalsy]
  · intro hmp hip hmp' hip' hc
    have hred : upload_and_register_model env store job_id user mname now =
        ⟨update_job_status store job_id "FAILED"
            (some "Required temporary files for upload were missing.") now {},
          .err 404
            "Required files for upload not found. The job may have expired or encountered an error.",
          false, false, false, ["FAILED"], env.existing_files⟩ := by
      unfold upload_and_register_model
      rw [hget]
      dsimp only []
      rw [if_neg (not_ne_iff.mpr howner), if_neg (not_ne_iff.mpr hstatus)]
      rw [hmp, hip]
      rcases not_and_or.mp hc with h1 | h1
      · have hm1 : mp ∉ env.existing_files := by
          intro hmem
          exact h1 (by simpa using hmem)
        simp [locatorFalsy, hmp', hip', hm1]
      · have hm2 : ip ∉ env.existing_files := by
          intro hmem
          exact h1 (by simpa using hmem)
        simp [locatorFalsy, hmp', hip', hm2]
    obtain ⟨j', hj', _, hst, hmsg, _, _, _, _, _, _⟩ :=
      get_job_update_fields store job_id "FAILED"
        (some "Required temporary files for upload were missing.") now {}
        job hget hid hne
    rw [hred]
    exact ⟨rfl, rfl, rfl, rfl, j', hj', hst, hmsg⟩

/-- Witness for C6 (amended) at a concrete owned TRAINING_COMPLETE job
with staged locators present but the files absent from disk. -/
theorem missing_staged_files_behavior_witness :
    ((locatorFalsy jobC3.temp_model_path || locatorFalsy jobC3.temp_info_path) = true →
      upload_and_register_model penvC2 storeC3 "job-c3" "0xabc" none 7 =
        ⟨storeC3, .err 500 "Internal error: Training output file paths not found.",
          false, false, false, [], penvC2.existing_files⟩)
    ∧ (jobC3.temp_model_path = some "/tmp/c3/model.joblib" →
        jobC3.temp_info_path = some "/tmp/c3/model_info.json" →
        ¬ "/tmp/c3/model.joblib" = "" → ¬ "/tmp/c3/model_info.json" = "" →
        ¬ (penvC2.existing_files.contains "/tmp/c3/model.joblib" = true ∧
            penvC2.existing_files.contains "/tmp/c3/model_info.json" = true) →
        (upload_and_register_model penvC2 storeC3 "job-c3" "0xabc" none 7).result =
          .err 404
            "Required files for upload not found. The job may have expired or encountered an error."
        ∧ (upload_and_register_model penvC2 storeC3 "job-c3" "0xabc" none 7).modelUploadInvoked = false
        ∧ (upload_and_register_model penvC2 storeC3 "job-c3" "0xabc" none 7).infoUploadInvoked = false
        ∧ (upload_and_register_model penvC2 storeC3 "job-c3" "0xabc" none 7).ledgerInvoked = false
        ∧ ∃ j', get_job (upload_and_register_model penvC2 storeC3 "job-c3" "0xabc" none 7).store
              "job-c3" = some j'
            ∧ j'.status = "FAILED"
            ∧ j'.message = some "Required temporary files for upload were missing.") :=
  missing_staged_files_behavior penvC2 storeC3 "job-c3" "0xabc" none 7 jobC3
    "/tmp/c3/model.joblib" "/tmp/c3/model_info.json"
    (by decide) (by decide) (by decide) rfl rfl

/-! ### C8: the start endpoint versus the TrainRequest model -/

/-- C8 (code bug): `TrainRequest` declares no `paymentTxHash` or
`paymentNonce` field, yet `start_training` reads both from the parsed
request when scheduling the background task, so every authenticated
request — after the PENDING job record has already been stored — raises
`AttributeError` and is answered 500, never `202 Accepted`. Evaluated here
at a concrete well-formed request. -/
theorem start_training_returns_500_not_202 :
    start_training
        { dataset_cid := "ds1", model_type := "RandomForest", target_column := "label" }
        "0xabc" [] "job-1" 0 =
      ([("job-1",
          { job_id := "job-1", status := "PENDING", dataset_cid := "ds1"
            owner_address := "0xabc" })],
        .err 500 "Internal Server Error")
    ∧ trainRequestHasAttr "paymentTxHash" = false
    ∧ trainRequestHasAttr "paymentNonce" = false := by
  refine ⟨by decide, by decide, by decide⟩

/-! ### C9: the status endpoint and the staged-file locators -/

/-- Counterexample for C9: the status endpoint returns the stored record
itself (its `response_model` carries every field of
`TrainingStatusResponse`), so an owner's query on a TRAINING_COMPLETE job
receives the local file-system paths of the staged artifact and metadata
files. -/
theorem status_endpoint_leaks_paths_counterexample :
    get_training_status storeC3 "job-c3" "0xabc" = .ok jobC3
    ∧ jobC3.temp_model_path = some "/tmp/c3/model.joblib"
    ∧ jobC3.temp_info_path = some "/tmp/c3/model_info.json" := by
  refine ⟨by decide, by decide, by decide⟩

/-- C9 (amended): for every existing job queried by its owner, the status
endpoint returns the full stored JobRecord — semantic fields and the
staged-file locators `temp_model_path` / `temp_info_path` included — so
local file-system paths are exposed to the external caller whenever they
are set. -/
theorem status_returns_full_record
    (store : JobStore) (job_id user : String) (job : JobRecord)
    (hget : get_job store job_id = some job)
    (howner : job.owner_address = user) :
    get_training_status store job_id user = .ok job := by
  unfold get_training_status
  rw [hget]
  dsimp only []
  rw [if_neg (not_ne_iff.mpr howner)]

/-- Witness for C9 (amended) at a concrete owned job with staged paths. -/
theorem status_returns_full_record_witness :
    get_training_status storeC3 "job-c3" "0xabc" = .ok jobC3 :=
  status_returns_full_record storeC3 "job-c3" "0xabc" jobC3 (by decide) rfl

/-! ### C10: inconsistent ownership checks -/

/-- C10: for an authenticated principal whose address differs from the
job's owner only in letter case, the status endpoint rejects with 401
(exact string comparison) while the publish endpoint's ownership check
passes (lower-cased comparison), so publish never returns its 403. -/
theorem ownership_checks_inconsistent
    (penv : PublishEnv) (store : JobStore) (job_id user : String)
    (mname : Option String) (now : Nat) (job : JobRecord)
    (hget : get_job store job_id = some job)
    (hcase : pyLower job.owner_address = pyLower user)
    (hneq : ¬ job.owner_address = user) :
    get_training_status store job_id user =
      .err 401 "Not authorized to view this training job status."
    ∧ (upload_and_register_model penv store job_id user mname now).result ≠
        HttpResult.err 403
          "User is not authorized to perform this action on the specified job." := by
  constructor
  · unfold get_training_status
    rw [hget]
    dsimp only []
    rw [if_pos hneq]
  · unfold upload_and_register_model
    rw [hget]
    dsimp only []
    rw [if_neg (not_ne_iff.mpr hcase)]
    split_ifs with h1 h2
    · simp
    · simp
    · simp
    · rcases penv.upload_file (job.temp_model_path.getD "") with _ | c1
      · simp
      · rcases penv.upload_file (job.temp_info_path.getD "") with _ | c2
        · simp
        · rcases penv.register_asset_provenance with _ | tx
          · simp
          · simp

/-- A job owned by a mixed-case address, for the C10 witness. -/
def jobC10 : JobRecord :=
  { job_id := "job-c10", status := "TRAINING_COMPLETE", dataset_cid := "ds1"
    owner_address := "0xAbC"
    temp_model_path := some "/tmp/c10/model.joblib"
    temp_info_path := some "/tmp/c10/model_info.json" }

/-- A store holding `jobC10`. -/
def storeC10 : JobStore := [("job-c10", jobC10)]

/-- Witness for C10: the caller's address equals the owner's up to case. -/
theorem ownership_checks_inconsistent_witness :
    get_training_status storeC10 "job-c10" "0xabc" =
      .err 401 "Not authorized to view this training job status."
    ∧ (upload_and_register_model penvC2 storeC10 "job-c10" "0xabc" none 9).result ≠
        HttpResult.err 403
          "User is not authorized to perform this action on the specified job." :=
  ownership_checks_inconsistent penvC2 storeC10 "job-c10" "0xabc" none 9 jobC10
    (by decide) (by decide) (by decide)

end DecenAI
